import Mathlib

/- Shallow embedding of src/Source/customWaterfall/src/barChart.ts, the single
source file of the PowerBICustomViz repository (a PowerBI waterfall bar-chart
visual).  JavaScript numbers are modelled as rationals ℚ; Math.floor and
Math.round become Int.floor-based functions; a value that can be undefined at
runtime (d3.max of an empty array) is modelled with Option.  The DOM and d3
rendering plumbing (svg selections, axis calls, the enter/exit join) is out of
scope; update returns the data it would hand to d3 — the view model and the
list of bar rectangles with their attributes. -/

/-- The BarChartDataPoint interface (barChart.ts lines 22-28).  The TypeScript
field names end and class are Lean keywords, so they appear here as end_ and
cls. -/
structure BarChartDataPoint where
  value : ℚ
  category : String
  start : ℚ
  end_ : ℚ
  cls : String
deriving DecidableEq

/-- The BarChartViewModel interface (lines 9-13).  dataMax is an Option
because it is produced by d3.max, which returns undefined on an empty
array. -/
structure BarChartViewModel where
  dataPoints : List BarChartDataPoint
  dataMax : Option ℚ
  dataMin : ℚ
deriving DecidableEq

/-- d3.max over an array of numbers: undefined (none) on an empty array,
otherwise the running maximum of the elements. -/
def d3Max : List ℚ → Option ℚ
  | [] => none
  | x :: xs => some (xs.foldl max x)

/-- The margins record of the static configuration (lines 43-48). -/
structure Margins where
  top : ℚ
  right : ℚ
  bottom : ℚ
  left : ℚ
deriving DecidableEq

/-- Shape of the static BarChart.Config object (lines 39-50). -/
structure BarChartConfig where
  xScalePadding : ℚ
  solidOpacity : ℚ
  transparentOpacity : ℚ
  margins : Margins
  xAxisFontMultiplier : ℚ
deriving DecidableEq

/-- JavaScript Math.round: round half toward positive infinity. -/
def jsRound (q : ℚ) : ℤ := ⌊q + 1/2⌋

/-- d3.scale.linear().domain([d0, d1]).range([r0, r1]) applied to v: linear
interpolation, with the d3 convention that a degenerate domain (d1 - d0 = 0)
maps every input to r0. -/
def linearScale (d0 d1 r0 r1 v : ℚ) : ℚ :=
  if d1 - d0 = 0 then r0 else r0 + (v - d0) / (d1 - d0) * (r1 - r0)

/-- The domain of a d3 v3 ordinal scale: the domain setter keeps the first
occurrence of each value and drops later duplicates. -/
def d3OrdinalDomain (xs : List String) : List String :=
  xs.foldl (fun dom x => if x ∈ dom then dom else dom ++ [x]) []

/-- The integer step of d3 v3 ordinal.rangeRoundBands:
Math.floor((stop - start) / (domain.length - padding + 2 * outerPadding)). -/
def rrbStep (n : ℕ) (start stop padding outerPadding : ℚ) : ℤ :=
  ⌊(stop - start) / ((n : ℚ) - padding + 2 * outerPadding)⌋

/-- Result of ordinal.rangeRoundBands: the list of band left edges (one per
domain entry, in domain order) and the common band width rangeBand. -/
structure RoundBands where
  range : List ℚ
  rangeBand : ℚ
deriving DecidableEq

/-- d3 v3 ordinal.rangeRoundBands([x0, x1], padding, outerPadding) for a
domain of n distinct values.  Following the d3 3.5 source: with
step = floor((stop - start) / (n - padding + 2 * outerPadding)) and
error = stop - start - (n - padding) * step, band i starts at
start + round(error / 2) + step * i, and rangeBand is
round(step * (1 - padding)).  The extent is swapped (and the band list
reversed) when x1 < x0. -/
def rangeRoundBands (n : ℕ) (x0 x1 padding outerPadding : ℚ) : RoundBands :=
  let start := if x1 < x0 then x1 else x0
  let stop := if x1 < x0 then x0 else x1
  let step : ℤ := rrbStep n start stop padding outerPadding
  let error : ℚ := stop - start - ((n : ℚ) - padding) * (step : ℚ)
  let rng := (List.range n).map
    fun i : ℕ => start + (jsRound (error / 2) : ℚ) + (step : ℚ) * (i : ℚ)
  { range := if x1 < x0 then rng.reverse else rng
    rangeBand := (jsRound ((step : ℚ) * (1 - padding)) : ℚ) }

/-- Application of a d3 v3 ordinal scale to a value of its domain: the range
entry at the index of the value in the deduplicated domain.  (d3 would append
an unknown value to the domain; every lookup performed by update is with a
domain member, so that branch is not modelled.) -/
def ordinalScale (dom : List String) (rng : List ℚ) (c : String) : ℚ :=
  rng.getD (dom.indexOf c) 0

/-- The model-building loop of BarChart.update ("Pre calculate start and end
of each bar", lines 181-194), abstracted over the current running total
cumulative and the list of remaining points: each point gets
start := cumulative, end := cumulative + value and a sign class, and the
point at the last index (i == dataPoints.length - 1) additionally gets its
start and end overwritten to 0 and its own value.  update enters the loop
with cumulative = 0. -/
def preCalcStartEnd (cumulative : ℚ) : List BarChartDataPoint → List BarChartDataPoint
  | [] => []
  | [p] =>
      [{ p with start := 0, end_ := p.value,
                cls := if p.value ≥ 0 then "positive" else "negative" }]
  | p :: q :: rest =>
      { p with start := cumulative, end_ := cumulative + p.value,
               cls := if p.value ≥ 0 then "positive" else "negative" } ::
      preCalcStartEnd (cumulative + p.value) (q :: rest)

/-- One rendered bar: the attributes set on the bar rectangles in the
bars.attr block (lines 202-208).  transform is the
translate(margins.left, margins.top) offset pair. -/
structure BarGeom where
  width : ℚ
  height : ℚ
  y : ℚ
  x : ℚ
  transform : ℚ × ℚ
deriving DecidableEq

namespace BarChart

/-- BarChart.Config (lines 39-50): 0.1 = 1/10, 0.4 = 2/5, 0.04 = 1/25. -/
def Config : BarChartConfig :=
  { xScalePadding := 1/10
    solidOpacity := 1
    transparentOpacity := 2/5
    margins := { top := 10, right := 0, bottom := 25, left := 45 }
    xAxisFontMultiplier := 1/25 }

/-- The hardcoded testData array of update (lines 85-131). -/
def testData : List BarChartDataPoint :=
  [ { value := 100, category := "Total", start := 0, end_ := 0, cls := "" }
  , { value := 60, category := "effect1", start := 0, end_ := 0, cls := "" }
  , { value := -20, category := "effect2", start := 0, end_ := 0, cls := "" }
  , { value := -10, category := "d", start := 0, end_ := 0, cls := "" }
  , { value := 30, category := "e", start := 0, end_ := 0, cls := "" }
  , { value := 160, category := "Total G", start := 0, end_ := 0, cls := "" } ]

/-- Construction of the view model (lines 133-137), abstracted over the point
list (update applies it to testData): dataMax is d3.max of the raw values,
dataMin is the literal 0 (the d3.min call is commented out in the source). -/
def buildViewModel (pts : List BarChartDataPoint) : BarChartViewModel :=
  { dataPoints := pts
    dataMax := d3Max (pts.map (·.value))
    dataMin := 0 }

/-- Line 148: height -= (margins.bottom + margins.top). -/
def plotHeight (viewportHeight : ℚ) : ℚ :=
  viewportHeight - (Config.margins.bottom + Config.margins.top)

/-- Line 149: width -= margins.left.  margins.right does not occur in this
computation (it is configured as 0 at line 45). -/
def plotWidth (viewportWidth : ℚ) : ℚ :=
  viewportWidth - Config.margins.left

/-- The local yScale of update (lines 158-160):
d3.scale.linear().domain([dataMin, dataMax]).range([height, 0]) where height
is the plot height.  dataMax.getD 0 converts the Option produced by d3.max to
a number for the scale domain; testData is non-empty, so the none default is
never taken. -/
def updateYScale (viewportHeight v : ℚ) : ℚ :=
  linearScale (buildViewModel testData).dataMin ((buildViewModel testData).dataMax.getD 0)
    (plotHeight viewportHeight) 0 v

/-- The domain of the local xScale of update (line 162): the category of
every data point, deduplicated by the d3 ordinal domain setter. -/
def updateXDomain : List String := d3OrdinalDomain (testData.map (·.category))

/-- The local xScale of update (lines 161-163):
d3.scale.ordinal().domain(categories).rangeRoundBands([0, width],
Config.xScalePadding) where width is the plot width; the omitted third
argument outerPadding defaults to padding in d3. -/
def updateXScale (viewportWidth : ℚ) : RoundBands :=
  rangeRoundBands updateXDomain.length 0 (plotWidth viewportWidth)
    Config.xScalePadding Config.xScalePadding

/-- The data BarChart.update (lines 84-213) hands to the rendering surface. -/
structure UpdateOutput where
  svgWidth : ℚ
  svgHeight : ℚ
  viewModel : BarChartViewModel
  bars : List BarGeom
deriving DecidableEq

/-- BarChart.update (lines 84-213).  hostData models the data carried by the
options argument of the host: the method receives it but reads only
options.viewport, so the argument is unused here exactly as in the source.
The axis rendering and the d3 enter/update/exit join are DOM side effects and
are not part of the returned data. -/
def update (viewportWidth viewportHeight : ℚ)
    (hostData : List BarChartDataPoint) : UpdateOutput :=
  let dataPoints := preCalcStartEnd 0 testData
  { svgWidth := viewportWidth
    svgHeight := viewportHeight
    viewModel := { buildViewModel testData with dataPoints := dataPoints }
    bars := dataPoints.map fun d =>
      { width := (updateXScale viewportWidth).rangeBand
        height := plotHeight viewportHeight -
          updateYScale viewportHeight (abs (d.start - d.end_))
        y := updateYScale viewportHeight (max d.start d.end_)
        x := ordinalScale updateXDomain (updateXScale viewportWidth).range d.category
        transform := (Config.margins.left, Config.margins.top) } }

end BarChart

/-- Default BarChartDataPoint used with List.getD in index-based statements. -/
def dfltPoint : BarChartDataPoint := { value := 0, category := "", start := 0, end_ := 0, cls := "" }

/-- Default BarGeom used with List.getD in index-based statements. -/
def dfltGeom : BarGeom := { width := 0, height := 0, y := 0, x := 0, transform := (0, 0) }

/-- Sum of the raw values of a list of data points. -/
def sumVals (pts : List BarChartDataPoint) : ℚ := (pts.map (·.value)).sum

open BarChart

lemma preCalc_length (c : ℚ) (pts : List BarChartDataPoint) :
    (preCalcStartEnd c pts).length = pts.length := by
  induction c, pts using preCalcStartEnd.induct with
  | case1 c => simp [preCalcStartEnd]
  | case2 c p => simp [preCalcStartEnd]
  | case3 c p q rest ih => simpa [preCalcStartEnd] using ih

lemma preCalc_getD_start (c : ℚ) (pts : List BarChartDataPoint) :
    ∀ i, i + 1 < pts.length →
      ((preCalcStartEnd c pts).getD i dfltPoint).start = c + sumVals (pts.take i) := by
  induction c, pts using preCalcStartEnd.induct with
  | case1 c => intro i h; simp at h
  | case2 c p => intro i h; simp at h
  | case3 c p q rest ih =>
      intro i h
      cases i with
      | zero => simp [preCalcStartEnd, sumVals]
      | succ j =>
          have h' : j + 1 < (q :: rest).length := by simp at h ⊢; omega
          simp only [preCalcStartEnd, List.getD_cons_succ]
          rw [ih j h']
          simp [sumVals]
          ring

lemma preCalc_getD_end (c : ℚ) (pts : List BarChartDataPoint) :
    ∀ i, i + 1 < pts.length →
      ((preCalcStartEnd c pts).getD i dfltPoint).end_ = c + sumVals (pts.take (i + 1)) := by
  induction c, pts using preCalcStartEnd.induct with
  | case1 c => intro i h; simp at h
  | case2 c p => intro i h; simp at h
  | case3 c p q rest ih =>
      intro i h
      cases i with
      | zero => simp [preCalcStartEnd, sumVals]
      | succ j =>
          have h' : j + 1 < (q :: rest).length := by simp at h ⊢; omega
          simp only [preCalcStartEnd, List.getD_cons_succ]
          rw [ih j h']
          simp [sumVals]
          ring

lemma preCalc_getD_value (c : ℚ) (pts : List BarChartDataPoint) :
    ∀ i, ((preCalcStartEnd c pts).getD i dfltPoint).value = (pts.getD i dfltPoint).value := by
  induction c, pts using preCalcStartEnd.induct with
  | case1 c => intro i; simp [preCalcStartEnd]
  | case2 c p => intro i; cases i <;> simp [preCalcStartEnd]
  | case3 c p q rest ih =>
      intro i
      cases i with
      | zero => simp [preCalcStartEnd]
      | succ j => simp only [preCalcStartEnd, List.getD_cons_succ]; exact ih j

lemma preCalc_getD_last (c : ℚ) (pts : List BarChartDataPoint) (h : pts ≠ []) :
    ((preCalcStartEnd c pts).getD (pts.length - 1) dfltPoint).start = 0 ∧
    ((preCalcStartEnd c pts).getD (pts.length - 1) dfltPoint).end_ =
      (pts.getD (pts.length - 1) dfltPoint).value := by
  induction c, pts using preCalcStartEnd.induct with
  | case1 c => exact absurd rfl h
  | case2 c p => simp [preCalcStartEnd]
  | case3 c p q rest ih =>
      have hl : (p :: q :: rest).length - 1 = ((q :: rest).length - 1) + 1 := by
        simp
      rw [hl]
      simp only [preCalcStartEnd, List.getD_cons_succ]
      exact ih (by simp)

lemma preCalc_mem_value_eq (c : ℚ) (pts : List BarChartDataPoint) :
    ∀ p ∈ preCalcStartEnd c pts, p.end_ - p.start = p.value := by
  induction c, pts using preCalcStartEnd.induct with
  | case1 c => simp [preCalcStartEnd]
  | case2 c p => simp [preCalcStartEnd]
  | case3 c p q rest ih =>
      intro x hx
      simp only [preCalcStartEnd, List.mem_cons] at hx
      rcases hx with hx | hx
      · subst hx; simp
      · exact ih x hx

lemma preCalc_mem_cls (c : ℚ) (pts : List BarChartDataPoint) :
    ∀ p ∈ preCalcStartEnd c pts,
      p.cls = if p.value ≥ 0 then "positive" else "negative" := by
  induction c, pts using preCalcStartEnd.induct with
  | case1 c => simp [preCalcStartEnd]
  | case2 c p => simp [preCalcStartEnd]
  | case3 c p q rest ih =>
      intro x hx
      simp only [preCalcStartEnd, List.mem_cons] at hx
      rcases hx with hx | hx
      · subst hx; simp
      · exact ih x hx

lemma getD_map_of_lt {α β : Type} (f : α → β) (l : List α) (i : ℕ) (d : α) (d' : β)
    (h : i < l.length) :
    (l.map f).getD i d' = f (l.getD i d) := by
  rw [List.getD_eq_getElem?_getD, List.getElem?_map, List.getD_eq_getElem?_getD,
      List.getElem?_eq_getElem h]
  simp

lemma sumVals_take_succ (pts : List BarChartDataPoint) (i : ℕ) (h : i < pts.length) :
    sumVals (pts.take (i + 1)) = sumVals (pts.take i) + (pts.getD i dfltPoint).value := by
  have hl : i < (pts.map (·.value)).length := by simpa using h
  simp only [sumVals, ← List.map_take]
  rw [List.map_take, List.map_take, List.sum_take_succ _ i hl]
  congr 1
  simp [List.getD_eq_getElem?_getD, List.getElem?_eq_getElem h]

lemma foldl_max_init_le (x : ℚ) (xs : List ℚ) : x ≤ xs.foldl max x := by
  induction xs generalizing x with
  | nil => exact le_refl x
  | cons y ys ih => exact le_trans (le_max_left x y) (ih (max x y))

lemma foldl_max_mem (x : ℚ) (xs : List ℚ) : xs.foldl max x ∈ x :: xs := by
  induction xs generalizing x with
  | nil => simp
  | cons y ys ih =>
      simp only [List.foldl_cons]
      rcases List.mem_cons.mp (ih (max x y)) with h | h
      · rw [h]
        rcases max_choice x y with hm | hm <;> rw [hm] <;> simp
      · simp [h]

lemma foldl_max_is_ub (x : ℚ) (xs : List ℚ) : ∀ v ∈ x :: xs, v ≤ xs.foldl max x := by
  induction xs generalizing x with
  | nil => simp
  | cons y ys ih =>
      intro v hv
      rcases List.mem_cons.mp hv with hv | hv
      · subst hv
        exact le_trans (le_max_left v y) (foldl_max_init_le _ _)
      · rcases List.mem_cons.mp hv with hv | hv
        · subst hv
          exact le_trans (le_max_right x v) (foldl_max_init_le _ _)
        · exact ih (max x y) v (List.mem_cons_of_mem _ hv)

lemma rrb_range_getD (n : ℕ) (x0 x1 p op : ℚ) (hx : ¬ x1 < x0) (k : ℕ) (hk : k < n) :
    (rangeRoundBands n x0 x1 p op).range.getD k 0 =
      x0 + (jsRound ((x1 - x0 - ((n : ℚ) - p) * (rrbStep n x0 x1 p op : ℚ)) / 2) : ℚ) +
        (rrbStep n x0 x1 p op : ℚ) * k := by
  simp only [rangeRoundBands, if_neg hx]
  rw [List.getD_eq_getElem?_getD, List.getElem?_map, List.getElem?_range hk]
  simp

lemma rrb_rangeBand (n : ℕ) (x0 x1 p op : ℚ) (hx : ¬ x1 < x0) :
    (rangeRoundBands n x0 x1 p op).rangeBand =
      (jsRound ((rrbStep n x0 x1 p op : ℚ) * (1 - p)) : ℚ) := by
  simp only [rangeRoundBands, if_neg hx]

lemma rrbStep_nonneg (n : ℕ) (w : ℚ) (hw : 0 ≤ w) :
    0 ≤ rrbStep n 0 w Config.xScalePadding Config.xScalePadding := by
  have hd : (0 : ℚ) < (n : ℚ) - 1/10 + 2 * (1/10) := by
    have : (0 : ℚ) ≤ (n : ℚ) := Nat.cast_nonneg n
    linarith
  have : (0 : ℚ) ≤ (w - 0) / ((n : ℚ) - 1/10 + 2 * (1/10)) :=
    div_nonneg (by linarith) (le_of_lt hd)
  simpa [rrbStep, Config] using Int.le_floor.mpr (by simpa using this)

lemma jsRound_le_of_nonneg (s : ℤ) (hs : 0 ≤ s) : jsRound ((s : ℚ) * (1 - 1/10)) ≤ s := by
  rw [jsRound, ← Int.lt_add_one_iff, Int.floor_lt]
  have : (0 : ℚ) ≤ (s : ℚ) := by exact_mod_cast hs
  push_cast
  linarith

lemma jsRound_nonneg_of_nonneg (s : ℤ) (hs : 0 ≤ s) : 0 ≤ jsRound ((s : ℚ) * (1 - 1/10)) := by
  rw [jsRound]
  apply Int.le_floor.mpr
  have : (0 : ℚ) ≤ (s : ℚ) := by exact_mod_cast hs
  push_cast
  linarith

lemma dataMax_testData : (buildViewModel testData).dataMax = some 160 := by
  norm_num [buildViewModel, testData, d3Max, List.foldl, max_def]

lemma updateYScale_eq (vh v : ℚ) :
    updateYScale vh v = plotHeight vh + v / 160 * (0 - plotHeight vh) := by
  rw [updateYScale, dataMax_testData]
  have hmin : (buildViewModel testData).dataMin = 0 := rfl
  rw [hmin]
  simp [linearScale]

lemma update_bars_getD (vw vh : ℚ) (host : List BarChartDataPoint) (i : ℕ)
    (hlen : i < (preCalcStartEnd 0 testData).length) :
    (update vw vh host).bars.getD i dfltGeom =
      { width := (updateXScale vw).rangeBand
        height := plotHeight vh -
          updateYScale vh (abs (((preCalcStartEnd 0 testData).getD i dfltPoint).start -
            ((preCalcStartEnd 0 testData).getD i dfltPoint).end_))
        y := updateYScale vh (max ((preCalcStartEnd 0 testData).getD i dfltPoint).start
          ((preCalcStartEnd 0 testData).getD i dfltPoint).end_)
        x := ordinalScale updateXDomain (updateXScale vw).range
          ((preCalcStartEnd 0 testData).getD i dfltPoint).category
        transform := (Config.margins.left, Config.margins.top) } := by
  simp only [update]
  exact getD_map_of_lt _ _ i dfltPoint dfltGeom hlen

lemma updateXScale_55 : updateXScale 55 =
    rangeRoundBands 6 0 10 Config.xScalePadding Config.xScalePadding := by
  have h1 : updateXDomain.length = 6 := rfl
  have h2 : plotWidth 55 = 10 := by norm_num [plotWidth, Config]
  rw [updateXScale, h1, h2]

lemma rrbStep_6_10 : rrbStep 6 0 10 Config.xScalePadding Config.xScalePadding = 1 := by
  have : Config.xScalePadding = 1/10 := rfl
  rw [rrbStep, this]
  norm_num [Int.floor_eq_iff]

/-- Claim C1: after the model-building loop of update (entered with running
total 0), every point except the last satisfies end = start + value, and the
start of each such point equals the cumulative sum of the values of all points
strictly before it in sequence order. -/
theorem running_total_nonfinal_points (pts : List BarChartDataPoint) (i : ℕ)
    (h : i < pts.length - 1) :
    ((preCalcStartEnd 0 pts).getD i dfltPoint).end_ =
      ((preCalcStartEnd 0 pts).getD i dfltPoint).start +
        ((preCalcStartEnd 0 pts).getD i dfltPoint).value ∧
    ((preCalcStartEnd 0 pts).getD i dfltPoint).start = sumVals (pts.take i) := by
  have h' : i + 1 < pts.length := by omega
  have hs := preCalc_getD_start 0 pts i h'
  have he := preCalc_getD_end 0 pts i h'
  have hv := preCalc_getD_value 0 pts i
  refine ⟨?_, by rw [hs, zero_add]⟩
  rw [hs, he, hv, sumVals_take_succ pts i (by omega)]
  ring

/-- Witness for claim C1, at the testData list and index 1: the enriched
second point has end = start + value and start = sum of the values before
it. -/
theorem running_total_nonfinal_points_witness :
    1 < BarChart.testData.length - 1 ∧
    (((preCalcStartEnd 0 BarChart.testData).getD 1 dfltPoint).end_ =
      ((preCalcStartEnd 0 BarChart.testData).getD 1 dfltPoint).start +
        ((preCalcStartEnd 0 BarChart.testData).getD 1 dfltPoint).value ∧
    ((preCalcStartEnd 0 BarChart.testData).getD 1 dfltPoint).start =
      sumVals (BarChart.testData.take 1)) :=
  ⟨by decide, running_total_nonfinal_points BarChart.testData 1 (by decide)⟩

/-- Claim C2: for every non-empty input and every initial running total, the
final point produced by the model-building loop has start = 0 and end equal to
its own raw value (which is the value of the last input point), regardless of
the accumulated total before it; the statement covers length-1 lists, where
the single point is both first and final. -/
theorem final_point_anchored_to_baseline (c : ℚ) (pts : List BarChartDataPoint)
    (h : pts ≠ []) :
    ((preCalcStartEnd c pts).getD (pts.length - 1) dfltPoint).start = 0 ∧
    ((preCalcStartEnd c pts).getD (pts.length - 1) dfltPoint).end_ =
      ((preCalcStartEnd c pts).getD (pts.length - 1) dfltPoint).value ∧
    ((preCalcStartEnd c pts).getD (pts.length - 1) dfltPoint).end_ =
      (pts.getD (pts.length - 1) dfltPoint).value := by
  obtain ⟨h1, h2⟩ := preCalc_getD_last c pts h
  exact ⟨h1, by rw [h2, preCalc_getD_value], h2⟩

/-- Witness for claim C2, on a length-1 list with a nonzero initial running
total 42: the single point is anchored to start = 0 and end = 50. -/
theorem final_point_anchored_to_baseline_witness :
    ([({ value := 50, category := "X", start := 0, end_ := 0, cls := "" } : BarChartDataPoint)] ≠
      ([] : List BarChartDataPoint)) ∧
    (((preCalcStartEnd 42 [{ value := 50, category := "X", start := 0, end_ := 0, cls := "" }]).getD
        (([({ value := 50, category := "X", start := 0, end_ := 0, cls := "" } : BarChartDataPoint)]).length - 1) dfltPoint).start = 0 ∧
     ((preCalcStartEnd 42 [{ value := 50, category := "X", start := 0, end_ := 0, cls := "" }]).getD
        (([({ value := 50, category := "X", start := 0, end_ := 0, cls := "" } : BarChartDataPoint)]).length - 1) dfltPoint).end_ =
     ((preCalcStartEnd 42 [{ value := 50, category := "X", start := 0, end_ := 0, cls := "" }]).getD
        (([({ value := 50, category := "X", start := 0, end_ := 0, cls := "" } : BarChartDataPoint)]).length - 1) dfltPoint).value ∧
     ((preCalcStartEnd 42 [{ value := 50, category := "X", start := 0, end_ := 0, cls := "" }]).getD
        (([({ value := 50, category := "X", start := 0, end_ := 0, cls := "" } : BarChartDataPoint)]).length - 1) dfltPoint).end_ =
     (([({ value := 50, category := "X", start := 0, end_ := 0, cls := "" } : BarChartDataPoint)]).getD
        (([({ value := 50, category := "X", start := 0, end_ := 0, cls := "" } : BarChartDataPoint)]).length - 1) dfltPoint).value) :=
  ⟨by simp, final_point_anchored_to_baseline 42 _ (by simp)⟩

/-- Claim C3, counterexample to the empty-sequence clause: on the empty input,
dataMax is undefined (none, the value d3.max returns), not 0 as the claim
states. -/
theorem dataMax_undefined_on_empty :
    (buildViewModel ([] : List BarChartDataPoint)).dataMax = none ∧
    (buildViewModel ([] : List BarChartDataPoint)).dataMax ≠ some 0 :=
  ⟨rfl, by simp [buildViewModel, d3Max]⟩

/-- Claim C3 as amended: for every non-empty input the view model has
dataMin = 0 and dataMax equal to the maximum raw value over all points (a
member of the value list that bounds every value); the computation is total.
On the empty input dataMax is none, settled by the counterexample theorem. -/
theorem dataMax_is_max_of_values (pts : List BarChartDataPoint) (h : pts ≠ []) :
    (buildViewModel pts).dataMin = 0 ∧
    ∃ m, (buildViewModel pts).dataMax = some m ∧ m ∈ pts.map (·.value) ∧
      ∀ v ∈ pts.map (·.value), v ≤ m := by
  refine ⟨rfl, ?_⟩
  cases pts with
  | nil => exact absurd rfl h
  | cons p ps =>
      refine ⟨(ps.map (·.value)).foldl max p.value, ?_, ?_, ?_⟩
      · rfl
      · simpa using foldl_max_mem p.value (ps.map (·.value))
      · simpa using foldl_max_is_ub p.value (ps.map (·.value))

/-- Witness for the amended claim C3, at the testData list. -/
theorem dataMax_is_max_of_values_witness :
    BarChart.testData ≠ [] ∧
    ((buildViewModel BarChart.testData).dataMin = 0 ∧
     ∃ m, (buildViewModel BarChart.testData).dataMax = some m ∧
       m ∈ BarChart.testData.map (·.value) ∧
       ∀ v ∈ BarChart.testData.map (·.value), v ≤ m) :=
  ⟨by simp [BarChart.testData],
    dataMax_is_max_of_values BarChart.testData (by simp [BarChart.testData])⟩

/-- Claim C4, counterexample: at viewport 50 by 20 (smaller than the total
margins 45/35), the plot height is negative (not clamped to 0) and the first
emitted bar has negative height. -/
theorem negative_bar_height_small_viewport :
    plotHeight 20 < 0 ∧ ((update 50 20 []).bars.getD 0 dfltGeom).height < 0 := by
  constructor
  · norm_num [plotHeight, Config]
  · have hlen : (0 : ℕ) < (preCalcStartEnd 0 testData).length := by decide
    have hbar : ((update 50 20 []).bars.getD 0 dfltGeom).height =
        plotHeight 20 - updateYScale 20 (abs (((preCalcStartEnd 0 testData).getD 0 dfltPoint).start -
          ((preCalcStartEnd 0 testData).getD 0 dfltPoint).end_)) := by
      rw [update_bars_getD 50 20 [] 0 hlen]
    rw [hbar, updateYScale_eq]
    norm_num [preCalcStartEnd, testData, plotHeight, Config]

/-- Claim C4 as amended: the code does not clamp; whenever the viewport height
is below margins.top + margins.bottom, the derived plot height is negative and
every emitted bar has negative height (each testData value is nonzero). -/
theorem no_clamping_negative_geometry (vw vh : ℚ) (host : List BarChartDataPoint) (i : ℕ)
    (hi : i < (update vw vh host).bars.length)
    (hvh : vh < Config.margins.top + Config.margins.bottom) :
    plotHeight vh < 0 ∧ ((update vw vh host).bars.getD i dfltGeom).height < 0 := by
  have hsum : Config.margins.top + Config.margins.bottom = (35 : ℚ) := by norm_num [Config]
  have hH : plotHeight vh < 0 := by
    rw [hsum] at hvh
    have : plotHeight vh = vh - 35 := by norm_num [plotHeight, Config]
    rw [this]
    linarith
  refine ⟨hH, ?_⟩
  have hlen : i < (preCalcStartEnd 0 testData).length := by simpa [update] using hi
  have hbar : ((update vw vh host).bars.getD i dfltGeom).height =
      plotHeight vh - updateYScale vh (abs (((preCalcStartEnd 0 testData).getD i dfltPoint).start -
        ((preCalcStartEnd 0 testData).getD i dfltPoint).end_)) := by
    rw [update_bars_getD vw vh host i hlen]
  rw [hbar, updateYScale_eq]
  have h6 : i < 6 := by simpa [preCalc_length, testData] using hlen
  interval_cases i <;> (norm_num [preCalcStartEnd, testData]; try linarith)

/-- Witness for the amended claim C4, at viewport 50 by 20 and bar index 0. -/
theorem no_clamping_negative_geometry_witness :
    (0 < (update 50 20 []).bars.length ∧
      (20 : ℚ) < Config.margins.top + Config.margins.bottom) ∧
    (plotHeight 20 < 0 ∧ ((update 50 20 []).bars.getD 0 dfltGeom).height < 0) :=
  ⟨⟨by decide, by norm_num [Config]⟩,
    no_clamping_negative_geometry 50 20 [] 0 (by decide) (by norm_num [Config])⟩

/-- Claim C5: every emitted bar has width = rangeBand of the category scale,
height = plotHeight minus the value scale applied to the absolute difference
of start and end, y = the value scale applied to max(start, end), x = the
category scale applied to the category of the point, and the
translate(margins.left, margins.top) offset. -/
theorem bar_geometry_formulas (vw vh : ℚ) (host : List BarChartDataPoint) (i : ℕ)
    (hi : i < (update vw vh host).bars.length) :
    ((update vw vh host).bars.getD i dfltGeom).width = (updateXScale vw).rangeBand ∧
    ((update vw vh host).bars.getD i dfltGeom).height = plotHeight vh -
      updateYScale vh (abs (((preCalcStartEnd 0 testData).getD i dfltPoint).start -
        ((preCalcStartEnd 0 testData).getD i dfltPoint).end_)) ∧
    ((update vw vh host).bars.getD i dfltGeom).y =
      updateYScale vh (max ((preCalcStartEnd 0 testData).getD i dfltPoint).start
        ((preCalcStartEnd 0 testData).getD i dfltPoint).end_) ∧
    ((update vw vh host).bars.getD i dfltGeom).x =
      ordinalScale updateXDomain (updateXScale vw).range
        ((preCalcStartEnd 0 testData).getD i dfltPoint).category ∧
    ((update vw vh host).bars.getD i dfltGeom).transform =
      (Config.margins.left, Config.margins.top) := by
  have hlen : i < (preCalcStartEnd 0 testData).length := by
    simpa [update] using hi
  rw [update_bars_getD vw vh host i hlen]
  exact ⟨rfl, rfl, rfl, rfl, rfl⟩

/-- Witness for claim C5, at viewport 500 by 400 and bar index 0. -/
theorem bar_geometry_formulas_witness :
    0 < (update 500 400 []).bars.length ∧
    (((update 500 400 []).bars.getD 0 dfltGeom).width = (updateXScale 500).rangeBand ∧
     ((update 500 400 []).bars.getD 0 dfltGeom).height = plotHeight 400 -
       updateYScale 400 (abs (((preCalcStartEnd 0 testData).getD 0 dfltPoint).start -
         ((preCalcStartEnd 0 testData).getD 0 dfltPoint).end_)) ∧
     ((update 500 400 []).bars.getD 0 dfltGeom).y =
       updateYScale 400 (max ((preCalcStartEnd 0 testData).getD 0 dfltPoint).start
         ((preCalcStartEnd 0 testData).getD 0 dfltPoint).end_) ∧
     ((update 500 400 []).bars.getD 0 dfltGeom).x =
       ordinalScale updateXDomain (updateXScale 500).range
         ((preCalcStartEnd 0 testData).getD 0 dfltPoint).category ∧
     ((update 500 400 []).bars.getD 0 dfltGeom).transform =
       (Config.margins.left, Config.margins.top)) :=
  ⟨by decide, bar_geometry_formulas 500 400 [] 0 (by decide)⟩

/-- Claim C6: the plot area is plotWidth = viewportWidth - margins.left and
plotHeight = viewportHeight - margins.top - margins.bottom; the configured
right margin (equal to 0) is not part of the width computation. -/
theorem plot_area_formulas (vw vh : ℚ) :
    plotWidth vw = vw - Config.margins.left ∧
    plotHeight vh = vh - Config.margins.top - Config.margins.bottom ∧
    Config.margins.right = 0 := by
  refine ⟨rfl, ?_, rfl⟩
  simp [plotHeight]
  ring

/-- Claim C7, counterexample: at viewport width 55 (plot width 10) with the
6 testData categories, the code-built category scale places band 0 at 2 and
band 1 at 3 with rangeBand 1, so the gap between consecutive bands (0) differs
from padding times rangeBand (1/10), and the first band does not start at 0,
so the union of the bands and gaps does not fill [0, plotWidth]. -/
theorem bands_gap_and_fill_mismatch :
    (updateXScale 55).range.getD 0 0 = 2 ∧
    (updateXScale 55).range.getD 1 0 = 3 ∧
    (updateXScale 55).rangeBand = 1 ∧
    (updateXScale 55).range.getD 1 0 -
      ((updateXScale 55).range.getD 0 0 + (updateXScale 55).rangeBand) ≠
      Config.xScalePadding * (updateXScale 55).rangeBand ∧
    (updateXScale 55).range.getD 0 0 ≠ 0 := by
  have hx : ¬ (10 : ℚ) < 0 := by norm_num
  have hpad : Config.xScalePadding = 1/10 := rfl
  have hg0 := rrb_range_getD 6 0 10 Config.xScalePadding Config.xScalePadding hx 0 (by norm_num)
  have hg1 := rrb_range_getD 6 0 10 Config.xScalePadding Config.xScalePadding hx 1 (by norm_num)
  have hb := rrb_rangeBand 6 0 10 Config.xScalePadding Config.xScalePadding hx
  rw [updateXScale_55, hg0, hg1, hb, rrbStep_6_10, hpad]
  have hr1 : jsRound ((10 - 0 - ((6 : ℕ) - 1/10 : ℚ) * ((1 : ℤ) : ℚ)) / 2) = 2 := by
    rw [jsRound]
    norm_num [Int.floor_eq_iff]
  have hr2 : jsRound (((1 : ℤ) : ℚ) * (1 - 1/10)) = 1 := by
    rw [jsRound]
    norm_num [Int.floor_eq_iff]
  rw [hr1, hr2]
  norm_num

/-- Claim C7 as amended: for a non-negative plot width, all bands share one
band width (rangeBand, which is non-negative), band left edges are uniformly
spaced step apart where step is the floored d3 step, and bands are pairwise
non-overlapping: left edge of band i plus rangeBand is at most the left edge
of any later band j.  Exact gap value padding * rangeBand and exact filling of
[0, plotWidth] fail because of rounding (see the counterexample theorem). -/
theorem bands_uniform_nonoverlapping (n : ℕ) (w : ℚ) (hw : 0 ≤ w)
    (i j : ℕ) (hij : i < j) (hj : j < n) :
    0 ≤ (rangeRoundBands n 0 w Config.xScalePadding Config.xScalePadding).rangeBand ∧
    (rangeRoundBands n 0 w Config.xScalePadding Config.xScalePadding).range.getD j 0 -
      (rangeRoundBands n 0 w Config.xScalePadding Config.xScalePadding).range.getD i 0 =
      ((j : ℚ) - (i : ℚ)) *
        ((rrbStep n 0 w Config.xScalePadding Config.xScalePadding : ℤ) : ℚ) ∧
    (rangeRoundBands n 0 w Config.xScalePadding Config.xScalePadding).range.getD i 0 +
      (rangeRoundBands n 0 w Config.xScalePadding Config.xScalePadding).rangeBand ≤
      (rangeRoundBands n 0 w Config.xScalePadding Config.xScalePadding).range.getD j 0 := by
  have hx : ¬ (w < (0 : ℚ)) := not_lt.mpr hw
  have hi : i < n := lt_trans hij hj
  have hstep := rrbStep_nonneg n w hw
  have hband := jsRound_le_of_nonneg _ hstep
  have hband0 := jsRound_nonneg_of_nonneg _ hstep
  have hgi := rrb_range_getD n 0 w Config.xScalePadding Config.xScalePadding hx i hi
  have hgj := rrb_range_getD n 0 w Config.xScalePadding Config.xScalePadding hx j hj
  have hb := rrb_rangeBand n 0 w Config.xScalePadding Config.xScalePadding hx
  have hpad : Config.xScalePadding = 1/10 := rfl
  rw [hgi, hgj, hb, hpad] at *
  have hsq : (0 : ℚ) ≤ (rrbStep n 0 w (1/10) (1/10) : ℚ) := by exact_mod_cast hstep
  have hbq : ((jsRound ((rrbStep n 0 w (1/10) (1/10) : ℚ) * (1 - 1/10)) : ℤ) : ℚ) ≤
      (rrbStep n 0 w (1/10) (1/10) : ℚ) := by exact_mod_cast hband
  have hbq0 : (0 : ℚ) ≤ ((jsRound ((rrbStep n 0 w (1/10) (1/10) : ℚ) * (1 - 1/10)) : ℤ) : ℚ) := by
    exact_mod_cast hband0
  have hji : (1 : ℚ) ≤ (j : ℚ) - (i : ℚ) := by
    have : (i : ℚ) + 1 ≤ (j : ℚ) := by exact_mod_cast hij
    linarith
  refine ⟨hbq0, by ring, ?_⟩
  nlinarith [mul_le_mul_of_nonneg_right hji hsq]

/-- Witness for the amended claim C7, with 2 bands on plot width 10 at
indices 0 and 1. -/
theorem bands_uniform_nonoverlapping_witness :
    ((0 : ℚ) ≤ 10 ∧ 0 < 1 ∧ 1 < 2) ∧
    (0 ≤ (rangeRoundBands 2 0 10 Config.xScalePadding Config.xScalePadding).rangeBand ∧
     (rangeRoundBands 2 0 10 Config.xScalePadding Config.xScalePadding).range.getD 1 0 -
       (rangeRoundBands 2 0 10 Config.xScalePadding Config.xScalePadding).range.getD 0 0 =
       ((1 : ℚ) - (0 : ℚ)) *
         ((rrbStep 2 0 10 Config.xScalePadding Config.xScalePadding : ℤ) : ℚ) ∧
     (rangeRoundBands 2 0 10 Config.xScalePadding Config.xScalePadding).range.getD 0 0 +
       (rangeRoundBands 2 0 10 Config.xScalePadding Config.xScalePadding).rangeBand ≤
       (rangeRoundBands 2 0 10 Config.xScalePadding Config.xScalePadding).range.getD 1 0) :=
  ⟨⟨by norm_num, by norm_num, by norm_num⟩,
    bands_uniform_nonoverlapping 2 10 (by norm_num) 0 1 (by norm_num) (by norm_num)⟩

/-- Claim C8: every point enriched by the model-building loop carries css
class "positive" exactly when its value is at least 0 (zero counts as
positive), and "negative" exactly when its value is below 0. -/
theorem sign_classification (c : ℚ) (pts : List BarChartDataPoint)
    (p : BarChartDataPoint) (hp : p ∈ preCalcStartEnd c pts) :
    (p.cls = "positive" ↔ p.value ≥ 0) ∧ (p.cls = "negative" ↔ p.value < 0) := by
  have hc := preCalc_mem_cls c pts p hp
  rw [hc]
  by_cases hv : p.value ≥ 0
  · simp [hv, not_lt.mpr hv]
  · simp [hv, lt_of_not_ge hv]

/-- Witness for claim C8, on a single point of value -3, classified
"negative". -/
theorem sign_classification_witness :
    (({ value := -3, category := "n", start := 0, end_ := -3, cls := "negative" } : BarChartDataPoint) ∈
      preCalcStartEnd 0 [{ value := -3, category := "n", start := 0, end_ := 0, cls := "" }]) ∧
    ((({ value := -3, category := "n", start := 0, end_ := -3, cls := "negative" } : BarChartDataPoint).cls = "positive" ↔
        ({ value := -3, category := "n", start := 0, end_ := -3, cls := "negative" } : BarChartDataPoint).value ≥ 0) ∧
     (({ value := -3, category := "n", start := 0, end_ := -3, cls := "negative" } : BarChartDataPoint).cls = "negative" ↔
        ({ value := -3, category := "n", start := 0, end_ := -3, cls := "negative" } : BarChartDataPoint).value < 0)) :=
  ⟨by norm_num [preCalcStartEnd],
    sign_classification 0 [{ value := -3, category := "n", start := 0, end_ := 0, cls := "" }] _
      (by norm_num [preCalcStartEnd])⟩

/-- Claim C9: update reads only the viewport from its options; the host
supplied data never influences the output, because the update path operates on
the embedded testData sample.  Two invocations with the same viewport and
different host data produce identical outputs (view model and bar geometry
included). -/
theorem update_ignores_host_data (vw vh : ℚ) (d1 d2 : List BarChartDataPoint) :
    update vw vh d1 = update vw vh d2 := rfl

/-- Claim C10: every point produced by the model-building loop, the
special-cased final point included and for every initial running total,
satisfies end - start = value, hence the absolute difference of start and end
is the magnitude of the value of the point — the quantity the bar height
formula of update consumes. -/
theorem end_minus_start_eq_value (c : ℚ) (pts : List BarChartDataPoint)
    (p : BarChartDataPoint) (hp : p ∈ preCalcStartEnd c pts) :
    p.end_ - p.start = p.value ∧ abs (p.start - p.end_) = abs p.value := by
  have h := preCalc_mem_value_eq c pts p hp
  exact ⟨h, by rw [abs_sub_comm, h]⟩

/-- Witness for claim C10, at the final (special-cased) enriched testData
point. -/
theorem end_minus_start_eq_value_witness :
    (({ value := 160, category := "Total G", start := 0, end_ := 160, cls := "positive" } : BarChartDataPoint) ∈
      preCalcStartEnd 0 BarChart.testData) ∧
    (({ value := 160, category := "Total G", start := 0, end_ := 160, cls := "positive" } : BarChartDataPoint).end_ -
       ({ value := 160, category := "Total G", start := 0, end_ := 160, cls := "positive" } : BarChartDataPoint).start =
       ({ value := 160, category := "Total G", start := 0, end_ := 160, cls := "positive" } : BarChartDataPoint).value ∧
     abs (({ value := 160, category := "Total G", start := 0, end_ := 160, cls := "positive" } : BarChartDataPoint).start -
       ({ value := 160, category := "Total G", start := 0, end_ := 160, cls := "positive" } : BarChartDataPoint).end_) =
       abs ({ value := 160, category := "Total G", start := 0, end_ := 160, cls := "positive" } : BarChartDataPoint).value) :=
  ⟨by norm_num [preCalcStartEnd, BarChart.testData], end_minus_start_eq_value 0 BarChart.testData _
    (by norm_num [preCalcStartEnd, BarChart.testData])⟩
